import Mathlib

set_option maxHeartbeats 1000000

/-!
Verification development for the governance-gated access-and-storage layer of
the deepadata-edm-mcp-server repository.

Shallow-embedding conventions used throughout:
* Date strings (ISO timestamps) are modelled by the integer instant they parse
  to (milliseconds); every function that calls `new Date()` in the source takes
  an explicit `now : Int` argument instead.
* The TypeScript interfaces are embedded at their declared types: string-literal
  unions become inductive types, `field?: T` becomes `Option T`, and runtime
  JavaScript truthiness of an optional string/number is modelled explicitly
  where the source tests it.
* Async functions are sequential (each `await` chains directly), so they are
  embedded as pure functions; pluggable capabilities (storage, signing,
  verification, base middleware) are explicit function arguments.
* JSON serialization of results is abstracted: a result carries the entity
  itself rather than its `JSON.stringify` text.
-/

deriving instance DecidableEq for Except

/-- JS `s.startsWith(p)`, computed on the character list so that concrete
instances evaluate inside the kernel. -/
def jsStartsWith (s p : String) : Bool :=
  p.toList.isPrefixOf s.toList

/-- JS `s.slice(n)` for a nonnegative character count n. -/
def jsDropChars (s : String) (n : Nat) : String :=
  { data := s.toList.drop n }

/-- JS `s.toLowerCase()` (ASCII case folding, as applied to header names). -/
def jsToLower (s : String) : String :=
  { data := s.toList.map Char.toLower }

/-- Exportability policy tier, source union 'allowed' | 'restricted' | 'prohibited'
(src/types.ts, ArtifactGovernance.exportability). -/
inductive Exportability
  | allowed
  | restricted
  | prohibited
deriving DecidableEq

/-- Visibility policy tier, source union 'public' | 'private' | 'shared'
(src/types.ts, ArtifactMeta.visibility). -/
inductive Visibility
  | public
  | «private»
  | shared
deriving DecidableEq

/-- Access purpose, source union 'read' | 'export' | 'modify' | 'delete'
(canAccess parameter in src/security/governance.ts). -/
inductive Purpose
  | read
  | «export»
  | modify
  | delete
deriving DecidableEq

/-- RetentionPolicy (src/types.ts); expires_at is a date string, modelled as its
parsed instant. -/
structure RetentionPolicy where
  duration_days : Option Int
  expires_at : Option Int
  auto_delete : Option Bool
deriving DecidableEq

/-- ArtifactGovernance (src/types.ts). -/
structure ArtifactGovernance where
  exportability : Exportability
  retention : Option RetentionPolicy
  classification : Option String
  compliance : Option (List String)
deriving DecidableEq

/-- ArtifactMeta (src/types.ts); created_at is a required date string, modelled
as its parsed instant. -/
structure ArtifactMeta where
  created_at : Int
  updated_at : Option Int
  visibility : Visibility
  owner_user_id : Option String
  owner_org_id : Option String
  tags : Option (List String)
  title : Option String
  description : Option String
deriving DecidableEq

/-- ProvenanceChainLink (src/types.ts); the opaque details map is elided. -/
structure ProvenanceChainLink where
  timestamp : Int
  action : String
  actor : Option String
deriving DecidableEq

/-- ArtifactProvenance (src/types.ts). -/
structure ArtifactProvenance where
  source : String
  source_url : Option String
  extraction_method : Option String
  chain : Option (List ProvenanceChainLink)
deriving DecidableEq

/-- ArtifactContent (src/types.ts); the opaque payload map is modelled as an
association list of strings, its `type` field is named `ctype` (Lean keyword). -/
structure ArtifactContent where
  ctype : String
  data : List (String × String)
  format : Option String
deriving DecidableEq

/-- ExtractionMetadata (src/types.ts); the floating-point confidence score is
abstracted to an integer. -/
structure ExtractionMetadata where
  model : Option String
  model_version : Option String
  confidence : Option Int
  extracted_at : Int
deriving DecidableEq

/-- EdmArtifact (src/types.ts). -/
structure EdmArtifact where
  schema_version : String
  artifact_id : String
  meta : ArtifactMeta
  content : ArtifactContent
  provenance : ArtifactProvenance
  governance : ArtifactGovernance
  extraction : Option ExtractionMetadata
deriving DecidableEq

/-- EnvelopeSignature (src/types.ts). -/
structure EnvelopeSignature where
  algorithm : String
  signer_did : String
  value : String
  public_key : Option String
deriving DecidableEq

/-- DdnaEnvelope (src/types.ts); sealed_at is a date string, modelled as its
parsed instant. -/
structure DdnaEnvelope where
  version : String
  artifact : EdmArtifact
  signature : EnvelopeSignature
  sealed_at : Int
deriving DecidableEq

/-- AuthContext (src/types.ts). -/
structure AuthContext where
  userId : String
  roles : List String
  organizationId : Option String
  permissions : Option (List String)
deriving DecidableEq

/-- canExport (src/security/governance.ts): true iff exportability is allowed. -/
def canExport (artifact : EdmArtifact) : Bool :=
  artifact.governance.exportability == Exportability.allowed

/-- isRestricted (src/security/governance.ts). -/
def isRestricted (artifact : EdmArtifact) : Bool :=
  artifact.governance.exportability == Exportability.restricted

/-- isProhibited (src/security/governance.ts). -/
def isProhibited (artifact : EdmArtifact) : Bool :=
  artifact.governance.exportability == Exportability.prohibited

/-- checkVisibility (src/security/governance.ts). The JS truthiness test on
`artifact.meta.owner_org_id` (a string) is `present and nonempty`. -/
def checkVisibility (artifact : EdmArtifact) (context : Option AuthContext) : Bool :=
  let visibility := artifact.meta.visibility
  if visibility == Visibility.public then
    true
  else
    match context with
    | none => false
    | some c =>
      if visibility == Visibility.«private» then
        artifact.meta.owner_user_id == some c.userId
      else if visibility == Visibility.shared then
        if artifact.meta.owner_user_id == some c.userId then
          true
        else if (match artifact.meta.owner_org_id with
                 | some o => o != "" && c.organizationId == some o
                 | none => false) then
          true
        else if (c.permissions.getD []).contains ("artifact:read:" ++ artifact.artifact_id) then
          true
        else
          false
      else
        false

/-- isExpired (src/security/governance.ts). `retention.duration_days && ...` is
a JS truthiness test: a zero duration_days is falsy and skips the branch; the
truthiness test on `artifact.meta.created_at` is always satisfied here because
created_at is a required (parsed) date in the model. -/
def isExpired (artifact : EdmArtifact) (now : Int) : Bool :=
  match artifact.governance.retention with
  | none => false
  | some retention =>
    match retention.expires_at with
    | some e => decide (e < now)
    | none =>
      match retention.duration_days with
      | some d =>
        if d != 0 then
          decide (artifact.meta.created_at + d * 24 * 60 * 60 * 1000 < now)
        else
          false
      | none => false

/-- AccessCheckResult (src/security/governance.ts). -/
structure AccessCheckResult where
  allowed : Bool
  reasons : List String
deriving DecidableEq

/-- The inline admin test of canAccess: `context?.roles?.includes('admin') ?? false`. -/
def isAdminContext (context : Option AuthContext) : Bool :=
  match context with
  | some c => c.roles.contains "admin"
  | none => false

/-- canAccess (src/security/governance.ts), with each early `return result`
embedded as the corresponding literal result. -/
def canAccess (artifact : EdmArtifact) (context : Option AuthContext)
    (purpose : Purpose) (now : Int) : AccessCheckResult :=
  if isExpired artifact now then
    { allowed := false, reasons := ["Artifact has expired"] }
  else
    let isAdmin := isAdminContext context
    if purpose == Purpose.modify || purpose == Purpose.delete then
      match context with
      | none => { allowed := false, reasons := ["Authentication required for modification"] }
      | some c =>
        let isOwner := artifact.meta.owner_user_id == some c.userId
        if !isOwner && !isAdmin then
          { allowed := false, reasons := ["Only owner or admin can modify/delete"] }
        else
          { allowed := true, reasons := [] }
    else
      if !isAdmin && !(checkVisibility artifact context) then
        { allowed := false, reasons := ["Visibility check failed"] }
      else if purpose == Purpose.«export» && !(canExport artifact) then
        if isProhibited artifact then
          { allowed := false, reasons := ["Artifact export is prohibited"] }
        else if isRestricted artifact then
          { allowed := false, reasons := ["Artifact export is restricted"] }
        else
          { allowed := false, reasons := [] }
      else
        { allowed := true, reasons := [] }

/-- GovernanceValidation (src/security/governance.ts). -/
structure GovernanceValidation where
  valid : Bool
  errors : List String
  warnings : List String
deriving DecidableEq

/-- validateGovernance (src/security/governance.ts). The missing-governance and
missing/invalid-exportability error branches of the source are unreachable at
the declared artifact type (required enum fields), so the error list is always
empty; the missing-visibility warning is likewise unreachable (visibility is a
required field of ArtifactMeta). The retention-precedence warning uses the JS
truthiness of duration_days (nonzero) and expires_at (present). -/
def validateGovernance (artifact : EdmArtifact) : GovernanceValidation :=
  let errors : List String := []
  let warnings : List String :=
    match artifact.governance.retention with
    | some retention =>
      if (match retention.duration_days with | some d => d != 0 | none => false)
          && retention.expires_at.isSome then
        ["Both duration_days and expires_at set; expires_at takes precedence"]
      else
        []
    | none => []
  { valid := errors.isEmpty, errors := errors, warnings := warnings }

/-- canAccessEnvelope (src/security/governance.ts): delegates to the wrapped
artifact's governance. -/
def canAccessEnvelope (envelope : DdnaEnvelope) (context : Option AuthContext)
    (purpose : Purpose) (now : Int) : AccessCheckResult :=
  canAccess envelope.artifact context purpose now

/-- A baseline sample artifact used to instantiate hypotheses in witness
theorems: public, exportable, no retention. -/
def sampleArtifact : EdmArtifact :=
  { schema_version := "0.4.0", artifact_id := "a1",
    meta := { created_at := 0, updated_at := none, visibility := Visibility.public,
              owner_user_id := some "u1", owner_org_id := none, tags := none,
              title := none, description := none },
    content := { ctype := "t", data := [], format := none },
    provenance := { source := "s", source_url := none, extraction_method := none,
                    chain := none },
    governance := { exportability := Exportability.allowed, retention := none,
                    classification := none, compliance := none },
    extraction := none }

example : canExport sampleArtifact = true := by decide
example : isExpired sampleArtifact 100 = false := by decide

/-- Runtime view of `Partial<EdmArtifact>` governance: every key may be absent.
A JS object spread `\x7b defaults, ...g \x7d` lets a present key of `g` win, so
field presence is modelled with `Option`. -/
structure OptArtifactGovernance where
  exportability : Option Exportability
  retention : Option RetentionPolicy
  classification : Option String
  compliance : Option (List String)
deriving DecidableEq

/-- Runtime view of `Partial<EdmArtifact>` meta: every key may be absent. -/
structure OptArtifactMeta where
  created_at : Option Int
  updated_at : Option Int
  visibility : Option Visibility
  owner_user_id : Option String
  owner_org_id : Option String
  tags : Option (List String)
  title : Option String
  description : Option String
deriving DecidableEq

/-- Runtime view of `Partial<EdmArtifact>` (the argument and, modulo the `as`
cast, the result type of applyDefaultGovernance). -/
structure OptEdmArtifact where
  schema_version : Option String
  artifact_id : Option String
  meta : Option OptArtifactMeta
  content : Option ArtifactContent
  provenance : Option ArtifactProvenance
  governance : Option OptArtifactGovernance
  extraction : Option ExtractionMetadata
deriving DecidableEq

/-- applyDefaultGovernance (src/security/governance.ts): spread-merge of the
fixed defaults (exportability restricted, visibility private, created_at now)
under any explicitly supplied values. `now` stands for the
`new Date().toISOString()` evaluated inside the source function. -/
def applyDefaultGovernance (artifact : OptEdmArtifact) (now : Int) : OptEdmArtifact :=
  { artifact with
    governance := some (match artifact.governance with
      | none =>
        { exportability := some Exportability.restricted, retention := none,
          classification := none, compliance := none }
      | some g => { g with exportability := some (g.exportability.getD Exportability.restricted) }),
    meta := some (match artifact.meta with
      | none =>
        { created_at := some now, updated_at := none,
          visibility := some Visibility.«private», owner_user_id := none,
          owner_org_id := none, tags := none, title := none, description := none }
      | some m =>
        { m with visibility := some (m.visibility.getD Visibility.«private»),
                 created_at := some (m.created_at.getD now) }) }

/-- Inbound request as the middleware layer sees it: a raw header list
(src/security/middleware.ts models richer request shapes; only the header
map extracted by `extractHeaders` is relevant to the wrapper under study). -/
structure Request where
  headers : List (String × String)
deriving DecidableEq

/-- extractHeaders (src/security/middleware.ts) followed by indexing the
resulting object at `key`: keys are lowercased and, on duplicates, the last
write to the object wins. -/
def extractHeaders (request : Request) (key : String) : Option String :=
  request.headers.foldl
    (fun acc p => if jsToLower p.fst == key then some p.snd else acc) none

/-- Middlewares are `async (request) => AuthContext | null`; sequential and
effect-free here, so embedded as pure functions. -/
def AuthMiddleware : Type := Request → Option AuthContext

/-- withOrganizationHeader (src/security/middleware.ts). The JS truthiness test
`if (orgId)` treats an absent or empty header value as falsy. -/
def withOrganizationHeader (baseMiddleware : AuthMiddleware) (orgHeader : String)
    (request : Request) : Option AuthContext :=
  match baseMiddleware request with
  | none => none
  | some context =>
    match extractHeaders request (jsToLower orgHeader) with
    | some orgId =>
      if orgId != "" then some { context with organizationId := some orgId }
      else some context
    | none => some context

/-- StorageErrorCode (src/storage/base.ts). -/
inductive StorageErrorCode
  | NOT_FOUND
  | ALREADY_EXISTS
  | PERMISSION_DENIED
  | INVALID_DATA
  | CONNECTION_ERROR
  | UNKNOWN
deriving DecidableEq

/-- StorageFilter (src/types.ts). -/
structure StorageFilter where
  userId : Option String
  organizationId : Option String
  tags : Option (List String)
  visibility : Option String
  limit : Option Int
  offset : Option Int
deriving DecidableEq

/-- JS truthiness of an optional string value: present and nonempty. -/
def strTruthy (o : Option String) : Bool :=
  match o with
  | some s => s != ""
  | none => false

/-- JS truthiness of an optional numeric value: present and nonzero. -/
def numTruthy (o : Option Int) : Bool :=
  match o with
  | some n => n != 0
  | none => false

/-- Visibility value as the wire string it round-trips to, for comparison with
the string-typed filter. -/
def visibilityStr (v : Visibility) : String :=
  match v with
  | Visibility.public => "public"
  | Visibility.«private» => "private"
  | Visibility.shared => "shared"

/-- MemoryArtifactStorage.list (src/storage/memory.ts). The Map is modelled as
an insertion-ordered association list with unique keys; `this.store.get(id)` is
`List.lookup`. The `slice(offset, offset + limit)` in the limit branch is
modelled for the non-negative indices the claims exercise (JS negative-index
slice semantics are not modelled). -/
def memoryArtifactList (store : List (String × EdmArtifact))
    (filter : Option StorageFilter) : List String :=
  let ids := store.map Prod.fst
  match filter with
  | none => ids
  | some f =>
    let ids := if strTruthy f.userId then
        ids.filter (fun id => ((store.lookup id).bind (fun a => a.meta.owner_user_id)) == f.userId)
      else ids
    let ids := if strTruthy f.organizationId then
        ids.filter (fun id => ((store.lookup id).bind (fun a => a.meta.owner_org_id)) == f.organizationId)
      else ids
    let ids := if strTruthy f.visibility then
        ids.filter (fun id => ((store.lookup id).map (fun a => visibilityStr a.meta.visibility)) == f.visibility)
      else ids
    let ids := if (match f.tags with | some ts => decide (ts.length > 0) | none => false) then
        ids.filter (fun id =>
          (f.tags.getD []).any (fun tag =>
            (((store.lookup id).bind (fun a => a.meta.tags)).getD []).contains tag))
      else ids
    let ids := if numTruthy f.limit then
        (ids.drop (f.offset.getD 0).toNat).take (f.limit.getD 0).toNat
      else ids
    ids

/-- MemoryEnvelopeStorage.list (src/storage/memory.ts): filters on the embedded
artifact's owner fields, then the same limit-guarded pagination. -/
def memoryEnvelopeList (store : List (String × DdnaEnvelope))
    (filter : Option StorageFilter) : List String :=
  let ids := store.map Prod.fst
  match filter with
  | none => ids
  | some f =>
    let ids := if strTruthy f.userId then
        ids.filter (fun id => ((store.lookup id).bind (fun e => e.artifact.meta.owner_user_id)) == f.userId)
      else ids
    let ids := if strTruthy f.organizationId then
        ids.filter (fun id => ((store.lookup id).bind (fun e => e.artifact.meta.owner_org_id)) == f.organizationId)
      else ids
    let ids := if numTruthy f.limit then
        (ids.drop (f.offset.getD 0).toNat).take (f.limit.getD 0).toNat
      else ids
    ids

/-- DDNA envelope URI scheme head, source constant DDNA_URI_PREFIX
(src/resources/ddna.ts). -/
def ddnaUriHead : String := "ddna://envelope/"

/-- DDNA envelope MIME type (src/resources/ddna.ts). -/
def ddnaMimeType : String := "application/vnd.deepadata.ddna+json"

/-- parseDdnaUri (src/resources/ddna.ts): `id || null` makes an empty id null. -/
def parseDdnaUri (uri : String) : Option String :=
  if jsStartsWith uri ddnaUriHead then
    let id := jsDropChars uri ddnaUriHead.length
    if id == "" then none else some id
  else none

/-- Result of the signature-verification capability (VerifySignature in
src/resources/ddna.ts). -/
structure VerifyResult where
  valid : Bool
  error : Option String
deriving DecidableEq

/-- DdnaResourceErrorCode (src/resources/ddna.ts). -/
inductive DdnaResourceErrorCode
  | NOT_FOUND
  | ACCESS_DENIED
  | INVALID_URI
  | INVALID_SIGNATURE
  | STORAGE_ERROR
deriving DecidableEq

/-- DdnaResourceResult (src/resources/ddna.ts); the JSON serialization of the
envelope is abstracted to the envelope itself. -/
structure DdnaResourceResult where
  uri : String
  mimeType : String
  envelope : DdnaEnvelope
deriving DecidableEq

/-- DdnaResourceProvider.read (src/resources/ddna.ts). `load` is the envelope
storage's load capability and `verify` the signature-verification capability;
the second component counts how many times `canAccessEnvelope` (the governance
evaluation) is consulted during the call. -/
def ddnaResourceRead (load : String → Except StorageErrorCode DdnaEnvelope)
    (verify : DdnaEnvelope → VerifyResult) (authContext : Option AuthContext)
    (now : Int) (uri : String) :
    Except DdnaResourceErrorCode DdnaResourceResult × Nat :=
  match parseDdnaUri uri with
  | none => (Except.error DdnaResourceErrorCode.INVALID_URI, 0)
  | some id =>
    match load id with
    | Except.error e =>
      if e == StorageErrorCode.NOT_FOUND then
        (Except.error DdnaResourceErrorCode.NOT_FOUND, 0)
      else
        (Except.error DdnaResourceErrorCode.STORAGE_ERROR, 0)
    | Except.ok envelope =>
      let verification := verify envelope
      if !verification.valid then
        (Except.error DdnaResourceErrorCode.INVALID_SIGNATURE, 0)
      else
        let accessCheck := canAccessEnvelope envelope authContext Purpose.«export» now
        if !accessCheck.allowed then
          (Except.error DdnaResourceErrorCode.ACCESS_DENIED, 1)
        else
          (Except.ok { uri := uri, mimeType := ddnaMimeType, envelope := envelope }, 1)

/-- SealErrorCode (src/tools/seal.ts). -/
inductive SealErrorCode
  | INVALID_INPUT
  | GOVERNANCE_VIOLATION
  | SIGNING_FAILED
  | STORAGE_FAILED
  | INVALID_KEY
deriving DecidableEq

/-- SealError (src/tools/seal.ts); the wrapped `cause` is elided. -/
structure SealError where
  message : String
  code : SealErrorCode
deriving DecidableEq

/-- Character class of the validation regex `[0-9a-fA-F]` in hexToKey. -/
def isHexDigit (c : Char) : Bool :=
  c.isDigit || ('a' ≤ c && c ≤ 'f') || ('A' ≤ c && c ≤ 'F')

/-- Numeric value of one hex digit, as `parseInt(_, 16)` assigns it. -/
def hexDigitVal (c : Char) : Nat :=
  if c.isDigit then c.toNat - '0'.toNat
  else if 'a' ≤ c && c ≤ 'f' then c.toNat - 'a'.toNat + 10
  else if 'A' ≤ c && c ≤ 'F' then c.toNat - 'A'.toNat + 10
  else 0

/-- The byte-building loop of hexToKey (src/tools/seal.ts):
`bytes[i/2] = parseInt(cleanHex.substring(i, i+2), 16)` for i = 0, 2, 4, ...;
only reached on even-length input, where the single-char case is vacuous. -/
def hexPairsToBytes : List Char → List Nat
  | [] => []
  | [_] => []
  | c1 :: c2 :: rest => (16 * hexDigitVal c1 + hexDigitVal c2) :: hexPairsToBytes rest

/-- The `cleanHex` local of hexToKey (src/tools/seal.ts): remove a 0x prefix
when present. -/
def cleanHexOf (hex : String) : String :=
  if jsStartsWith hex "0x" then jsDropChars hex 2 else hex

/-- hexToKey (src/tools/seal.ts): strip an optional 0x, then require only hex
digits and an even digit count before converting pairwise to bytes. -/
def hexToKey (hex : String) : Except SealError (List Nat) :=
  let cleanHex := cleanHexOf hex
  if !(cleanHex.toList.all isHexDigit) then
    Except.error { message := "Invalid hex string", code := SealErrorCode.INVALID_KEY }
  else if cleanHex.length % 2 != 0 then
    Except.error { message := "Hex string must have even length", code := SealErrorCode.INVALID_KEY }
  else
    Except.ok (hexPairsToBytes cleanHex.toList)

/-- Modelled from the spec: the byte sequence a hex digit string denotes —
byte i is the value of the two-digit numeral at positions 2i and 2i+1. Stated
independently of the implementation's loop for the refinement part of the
hex-decoding claim. -/
def specDenotedBytes (digits : List Char) : List Nat :=
  (List.range (digits.length / 2)).map fun i =>
    16 * hexDigitVal (digits.getD (2 * i) '0') + hexDigitVal (digits.getD (2 * i + 1) '0')

/-- Arguments of SealToolHandler.execute (src/tools/seal.ts); `artifact` is
optional to keep the source's `if (!args.artifact)` guard live. -/
structure SealArgs where
  artifact : Option EdmArtifact
  privateKey : String
  did : String
  algorithm : Option String
  save : Option Bool
deriving DecidableEq

/-- SealResult (src/tools/seal.ts). -/
structure SealResult where
  envelope : DdnaEnvelope
  savedId : Option String
  warnings : Option (List String)
deriving DecidableEq

/-- Capability-invocation trace of one execute call: how many times the
pluggable signing capability (`this.sealFn`) ran and how many times an
envelope-storage save was attempted. -/
structure SealTrace where
  sealCalls : Nat
  saveCalls : Nat
deriving DecidableEq

/-- SealToolHandler.execute (src/tools/seal.ts). `storageSave` is the optional
envelope storage's save capability (`this.storage` may be null), `sealFn` the
pluggable signing capability; both may fail with an arbitrary error message.
Each early `throw` is embedded as the corresponding error result, paired with
the capability-invocation trace up to that point. -/
def sealExecute (storageSave : Option (DdnaEnvelope → Except String String))
    (sealFn : EdmArtifact → List Nat → String → Option String → Except String DdnaEnvelope)
    (args : SealArgs) : Except SealError SealResult × SealTrace :=
  match args.artifact with
  | none =>
    (Except.error { message := "Artifact is required", code := SealErrorCode.INVALID_INPUT },
     { sealCalls := 0, saveCalls := 0 })
  | some artifact =>
    if artifact.artifact_id == "" then
      (Except.error { message := "Artifact must have an artifact_id", code := SealErrorCode.INVALID_INPUT },
       { sealCalls := 0, saveCalls := 0 })
    else
      let govValidation := validateGovernance artifact
      if !govValidation.valid then
        (Except.error { message := "Governance validation failed: " ++ String.intercalate ", " govValidation.errors,
                        code := SealErrorCode.GOVERNANCE_VIOLATION },
         { sealCalls := 0, saveCalls := 0 })
      else
        let warnings := govValidation.warnings
        if !(canExport artifact) then
          (Except.error { message := "Artifact is not exportable and cannot be sealed",
                          code := SealErrorCode.GOVERNANCE_VIOLATION },
           { sealCalls := 0, saveCalls := 0 })
        else if args.did == "" || !(jsStartsWith args.did "did:") then
          (Except.error { message := "Invalid DID format (must start with did:)",
                          code := SealErrorCode.INVALID_INPUT },
           { sealCalls := 0, saveCalls := 0 })
        else
          match hexToKey args.privateKey with
          | Except.error _ =>
            (Except.error { message := "Invalid private key format", code := SealErrorCode.INVALID_KEY },
             { sealCalls := 0, saveCalls := 0 })
          | Except.ok privateKeyBytes =>
            match sealFn artifact privateKeyBytes args.did args.algorithm with
            | Except.error _ =>
              (Except.error { message := "Signing failed", code := SealErrorCode.SIGNING_FAILED },
               { sealCalls := 1, saveCalls := 0 })
            | Except.ok envelope =>
              let warningsOut := if warnings.isEmpty then none else some warnings
              if args.save.getD false then
                match storageSave with
                | some save =>
                  match save envelope with
                  | Except.error _ =>
                    (Except.error { message := "Failed to save envelope", code := SealErrorCode.STORAGE_FAILED },
                     { sealCalls := 1, saveCalls := 1 })
                  | Except.ok savedId =>
                    (Except.ok { envelope := envelope, savedId := some savedId, warnings := warningsOut },
                     { sealCalls := 1, saveCalls := 1 })
                | none =>
                  (Except.ok { envelope := envelope, savedId := none, warnings := warningsOut },
                   { sealCalls := 1, saveCalls := 0 })
              else
                (Except.ok { envelope := envelope, savedId := none, warnings := warningsOut },
                 { sealCalls := 1, saveCalls := 0 })

/-- An administrative identity, used to witness the no-admin-bypass claims. -/
def adminUser : AuthContext :=
  { userId := "admin-1", roles := ["admin"], organizationId := none, permissions := none }

/-- Sample artifact whose retention expiry instant 0 lies in the past of now = 1. -/
def expiredSample : EdmArtifact :=
  { sampleArtifact with
    governance := { sampleArtifact.governance with
                    retention := some { duration_days := none, expires_at := some 0,
                                        auto_delete := none } } }

/-- Sample artifact with exportability prohibited. -/
def prohibitedSample : EdmArtifact :=
  { sampleArtifact with
    governance := { sampleArtifact.governance with
                    exportability := Exportability.prohibited } }

/-- Sample artifact with exportability restricted. -/
def restrictedSample : EdmArtifact :=
  { sampleArtifact with
    governance := { sampleArtifact.governance with
                    exportability := Exportability.restricted } }

/-- At the declared artifact type every governance check of validateGovernance
passes, so validation always succeeds (possibly with warnings). -/
theorem validateGovernance_valid (artifact : EdmArtifact) :
    (validateGovernance artifact).valid = true := rfl

/-- Changing only the exportability tier does not affect expiration. -/
theorem isExpired_update_exportability (artifact : EdmArtifact) (x : Exportability) (now : Int) :
    isExpired { artifact with
                governance := { artifact.governance with exportability := x } } now =
      isExpired artifact now := by
  simp [isExpired]

/-- Changing only the exportability tier does not affect visibility checks. -/
theorem checkVisibility_update_exportability (artifact : EdmArtifact) (x : Exportability)
    (context : Option AuthContext) :
    checkVisibility { artifact with
                      governance := { artifact.governance with exportability := x } } context =
      checkVisibility artifact context := by
  simp [checkVisibility]

/-- Claim C1: for every artifact for which isExpired is true, canAccess returns
an AccessDecision with allowed = false and the expiration reason, for every
identity (administrative ones included) and for every purpose; no identity or
purpose bypasses the expiration check. -/
theorem expired_artifact_denies_every_access (artifact : EdmArtifact)
    (context : Option AuthContext) (purpose : Purpose) (now : Int)
    (h : isExpired artifact now = true) :
    canAccess artifact context purpose now =
      { allowed := false, reasons := ["Artifact has expired"] } := by
  simp [canAccess, h]

/-- Witness for C1: a concretely expired artifact is denied export even to an
administrative identity, with the expiration reason. -/
theorem expired_artifact_denies_every_access_witness :
    isExpired expiredSample 1 = true ∧
    canAccess expiredSample (some adminUser) Purpose.«export» 1 =
      { allowed := false, reasons := ["Artifact has expired"] } :=
  ⟨by decide,
   expired_artifact_denies_every_access expiredSample (some adminUser) Purpose.«export» 1
     (by decide)⟩

/-- Claim C2: for every non-expired artifact whose exportability is prohibited,
canAccess with purpose export returns allowed = false for every identity,
administrative ones included; whenever the export check itself is reached (the
identity is administrative or passes visibility), the reason is the prohibited
message, which differs from the message the restricted state would produce. -/
theorem prohibited_artifact_denies_export (artifact : EdmArtifact) (now : Int)
    (hexp : artifact.governance.exportability = Exportability.prohibited)
    (hlive : isExpired artifact now = false) :
    (∀ context, (canAccess artifact context Purpose.«export» now).allowed = false) ∧
    (∀ context, (isAdminContext context = true ∨ checkVisibility artifact context = true) →
      (canAccess artifact context Purpose.«export» now).reasons =
        ["Artifact export is prohibited"]) ∧
    (∀ context, (isAdminContext context = true ∨ checkVisibility artifact context = true) →
      (canAccess { artifact with
                   governance := { artifact.governance with
                                   exportability := Exportability.restricted } }
          context Purpose.«export» now).reasons = ["Artifact export is restricted"]) ∧
    ("Artifact export is prohibited" : String) ≠ "Artifact export is restricted" := by
  refine ⟨?_, ?_, ?_, by decide⟩
  · intro context
    by_cases ha : isAdminContext context = true <;>
      by_cases hv : checkVisibility artifact context = true <;>
      simp [canAccess, hlive, ha, hv, canExport, isProhibited, isRestricted, hexp]
  · intro context hcase
    rcases hcase with ha | hv
    · simp [canAccess, hlive, ha, canExport, isProhibited, isRestricted, hexp]
    · by_cases ha : isAdminContext context = true <;>
        simp [canAccess, hlive, ha, hv, canExport, isProhibited, isRestricted, hexp]
  · intro context hcase
    rcases hcase with ha | hv
    · simp [canAccess, isExpired_update_exportability, hlive, ha, canExport,
            isProhibited, isRestricted]
    · by_cases ha : isAdminContext context = true <;>
        simp [canAccess, isExpired_update_exportability,
              checkVisibility_update_exportability, hlive, ha, hv, canExport,
              isProhibited, isRestricted]

/-- Witness for C2: the concrete prohibited sample denies export to an
administrative identity with the prohibited-specific reason. -/
theorem prohibited_artifact_denies_export_witness :
    (canAccess prohibitedSample (some adminUser) Purpose.«export» 5).allowed = false ∧
    (canAccess prohibitedSample (some adminUser) Purpose.«export» 5).reasons =
      ["Artifact export is prohibited"] := by
  have h := prohibited_artifact_denies_export prohibitedSample 5 (by decide) (by decide)
  exact ⟨h.1 (some adminUser), h.2.1 (some adminUser) (Or.inl (by decide))⟩

/-- Claim C3: when the signature-verification capability reports a stored
envelope invalid, the single-address envelope read fails with INVALID_SIGNATURE
regardless of the envelope's artifact governance fields and of the caller's
identity, and the governance evaluation (canAccessEnvelope) is never consulted:
the access-check counter of the call is 0. -/
theorem invalid_signature_fails_before_governance
    (load : String → Except StorageErrorCode DdnaEnvelope)
    (verify : DdnaEnvelope → VerifyResult) (authContext : Option AuthContext)
    (now : Int) (uri id : String) (envelope : DdnaEnvelope)
    (hparse : parseDdnaUri uri = some id)
    (hload : load id = Except.ok envelope)
    (hverify : (verify envelope).valid = false) :
    ddnaResourceRead load verify authContext now uri =
      (Except.error DdnaResourceErrorCode.INVALID_SIGNATURE, 0) := by
  simp [ddnaResourceRead, hparse, hload, hverify]

/-- Sample sealed envelope wrapping the baseline sample artifact. -/
def sampleEnvelope : DdnaEnvelope :=
  { version := "1.0", artifact := sampleArtifact,
    signature := { algorithm := "Ed25519", signer_did := "did:example:alice",
                   value := "sig", public_key := none },
    sealed_at := 10 }

/-- Witness for C3: a stored envelope failing verification is read as
INVALID_SIGNATURE with zero access checks, even for an administrative caller. -/
theorem invalid_signature_fails_before_governance_witness :
    parseDdnaUri "ddna://envelope/e1" = some "e1" ∧
    ((fun _ => ({ valid := false, error := some "Missing signature" } : VerifyResult))
        sampleEnvelope).valid = false ∧
    ddnaResourceRead (fun _ => Except.ok sampleEnvelope)
        (fun _ => ({ valid := false, error := some "Missing signature" } : VerifyResult))
        (some adminUser) 10 "ddna://envelope/e1" =
      (Except.error DdnaResourceErrorCode.INVALID_SIGNATURE, 0) :=
  ⟨by decide, rfl,
   invalid_signature_fails_before_governance (fun _ => Except.ok sampleEnvelope)
     (fun _ => ({ valid := false, error := some "Missing signature" } : VerifyResult))
     (some adminUser) 10 "ddna://envelope/e1" "e1" sampleEnvelope (by decide) rfl rfl⟩

/-- Claim C4: for every artifact with a non-empty identifier that passes
structural governance validation but whose exportability is not allowed (for
example restricted), the seal operation fails with a GOVERNANCE_VIOLATION
error, the signing capability is never invoked and no envelope-storage save is
attempted (the trace is zero), for every storage backend, signing capability
and argument record — in particular even when the save flag is set. -/
theorem seal_rejects_unexportable_artifact
    (storageSave : Option (DdnaEnvelope → Except String String))
    (sealFn : EdmArtifact → List Nat → String → Option String → Except String DdnaEnvelope)
    (args : SealArgs) (artifact : EdmArtifact)
    (hart : args.artifact = some artifact)
    (hid : artifact.artifact_id ≠ "")
    (hexp : artifact.governance.exportability ≠ Exportability.allowed) :
    sealExecute storageSave sealFn args =
      (Except.error { message := "Artifact is not exportable and cannot be sealed",
                      code := SealErrorCode.GOVERNANCE_VIOLATION },
       { sealCalls := 0, saveCalls := 0 }) := by
  simp [sealExecute, hart, hid, validateGovernance_valid, canExport, hexp]

/-- A concrete signing capability for witnesses: wraps the artifact in a fixed
envelope. -/
def demoSealFn (a : EdmArtifact) (_k : List Nat) (d : String) (alg : Option String) :
    Except String DdnaEnvelope :=
  Except.ok
    { version := "1.0", artifact := a,
      signature := { algorithm := alg.getD "Ed25519", signer_did := d,
                     value := "sig", public_key := none },
      sealed_at := 3 }

/-- A concrete always-succeeding envelope save capability for witnesses. -/
def demoSave (_e : DdnaEnvelope) : Except String String :=
  Except.ok "saved-1"

/-- Seal arguments for the C4 witness: restricted artifact, save flag set. -/
def sealArgsRestricted : SealArgs :=
  { artifact := some restrictedSample, privateKey := "0102",
    did := "did:example:alice", algorithm := none, save := some true }

/-- Witness for C4: sealing the concrete restricted sample with the save flag
set fails with GOVERNANCE_VIOLATION and a zero capability trace. -/
theorem seal_rejects_unexportable_artifact_witness :
    restrictedSample.artifact_id ≠ "" ∧
    restrictedSample.governance.exportability ≠ Exportability.allowed ∧
    sealExecute (some demoSave) demoSealFn sealArgsRestricted =
      (Except.error { message := "Artifact is not exportable and cannot be sealed",
                      code := SealErrorCode.GOVERNANCE_VIOLATION },
       { sealCalls := 0, saveCalls := 0 }) :=
  ⟨by decide, by decide,
   seal_rejects_unexportable_artifact (some demoSave) demoSealFn sealArgsRestricted
     restrictedSample rfl (by decide) (by decide)⟩

/-- Claim C5: applyDefaultGovernance is idempotent, explicitly supplied values
for exportability, visibility and created_at always win (the whole supplied
governance aggregate is preserved apart from filling exportability), and the
defaults restricted / private / now fill in exactly when the field is absent. -/
theorem applyDefaultGovernance_idempotent_explicit_wins
    (artifact : OptEdmArtifact) (t1 t2 : Int) :
    applyDefaultGovernance (applyDefaultGovernance artifact t1) t2 =
      applyDefaultGovernance artifact t1 ∧
    (∀ g e, artifact.governance = some g → g.exportability = some e →
      (applyDefaultGovernance artifact t1).governance =
        some { g with exportability := some e }) ∧
    (∀ m v, artifact.meta = some m → m.visibility = some v →
      ((applyDefaultGovernance artifact t1).meta.bind OptArtifactMeta.visibility) = some v) ∧
    (∀ m c, artifact.meta = some m → m.created_at = some c →
      ((applyDefaultGovernance artifact t1).meta.bind OptArtifactMeta.created_at) = some c) ∧
    ((artifact.governance.bind OptArtifactGovernance.exportability) = none →
      ((applyDefaultGovernance artifact t1).governance.bind OptArtifactGovernance.exportability) =
        some Exportability.restricted) ∧
    ((artifact.meta.bind OptArtifactMeta.visibility) = none →
      ((applyDefaultGovernance artifact t1).meta.bind OptArtifactMeta.visibility) =
        some Visibility.«private») ∧
    ((artifact.meta.bind OptArtifactMeta.created_at) = none →
      ((applyDefaultGovernance artifact t1).meta.bind OptArtifactMeta.created_at) = some t1) := by
  obtain ⟨sv, aid, m, c, p, g, ex⟩ := artifact
  refine ⟨?_, ?_, ?_, ?_, ?_, ?_, ?_⟩
  · cases g <;> cases m <;> simp [applyDefaultGovernance]
  · intro g0 e hg he
    subst hg
    simp [applyDefaultGovernance, he]
  · intro m0 v hm hv
    subst hm
    simp [applyDefaultGovernance, hv]
  · intro m0 c0 hm hc
    subst hm
    simp [applyDefaultGovernance, hc]
  · intro h
    cases g with
    | none => simp [applyDefaultGovernance]
    | some g0 =>
      simp at h
      simp [applyDefaultGovernance, h]
  · intro h
    cases m with
    | none => simp [applyDefaultGovernance]
    | some m0 =>
      simp at h
      simp [applyDefaultGovernance, h]
  · intro h
    cases m with
    | none => simp [applyDefaultGovernance]
    | some m0 =>
      simp at h
      simp [applyDefaultGovernance, h]

/-- A concretely partial artifact: explicit exportability, no meta. -/
def optSample : OptEdmArtifact :=
  { schema_version := none, artifact_id := some "a2", meta := none,
    content := none, provenance := none,
    governance := some { exportability := some Exportability.allowed,
                         retention := none, classification := none,
                         compliance := none },
    extraction := none }

/-- Witness for C5: idempotence at a concrete partial artifact and two distinct
instants, the explicit exportability winning over the restricted default, and
the created_at default filling the absent meta with the first instant. -/
theorem applyDefaultGovernance_idempotent_explicit_wins_witness :
    applyDefaultGovernance (applyDefaultGovernance optSample 3) 7 =
      applyDefaultGovernance optSample 3 ∧
    (applyDefaultGovernance optSample 3).governance =
      some { exportability := some Exportability.allowed, retention := none,
             classification := none, compliance := none } ∧
    ((applyDefaultGovernance optSample 3).meta.bind OptArtifactMeta.created_at) = some 3 :=
  ⟨(applyDefaultGovernance_idempotent_explicit_wins optSample 3 7).1,
   (applyDefaultGovernance_idempotent_explicit_wins optSample 3 7).2.1
     { exportability := some Exportability.allowed, retention := none,
       classification := none, compliance := none } Exportability.allowed rfl rfl,
   (applyDefaultGovernance_idempotent_explicit_wins optSample 3 7).2.2.2.2.2.2 rfl⟩

/-- Retention policy with duration_days explicitly set to zero and no expiry. -/
def zeroDurationSample : EdmArtifact :=
  { sampleArtifact with
    governance := { sampleArtifact.governance with
                    retention := some { duration_days := some 0, expires_at := none,
                                        auto_delete := none } } }

/-- Counterexample to claim C6: an artifact whose retention sets only
duration_days (to zero) that was created at instant 0; at now = 1 zero days
have elapsed since created_at — so, by the claim, the result should be whether
duration_days have elapsed, i.e. true — yet isExpired returns false, because
the JS truthiness test `retention.duration_days && ...` treats 0 as unset. -/
theorem isExpired_zero_duration_counterexample :
    zeroDurationSample.governance.retention =
      some { duration_days := some 0, expires_at := none, auto_delete := none } ∧
    zeroDurationSample.meta.created_at + 0 * 24 * 60 * 60 * 1000 < (1 : Int) ∧
    isExpired zeroDurationSample 1 = false := by decide

/-- Claim C6 (amended): isExpired returns false whenever retention is absent;
when expires_at is set the result is solely whether expires_at is in the past,
regardless of duration_days; when expires_at is absent and duration_days is set
to a nonzero value, the result is whether duration_days have elapsed since
meta.created_at; and when duration_days is absent or zero (zero being JS-falsy)
the artifact is not expired. -/
theorem isExpired_retention_cases (artifact : EdmArtifact) (now : Int) :
    (artifact.governance.retention = none → isExpired artifact now = false) ∧
    (∀ r e, artifact.governance.retention = some r → r.expires_at = some e →
      isExpired artifact now = decide (e < now)) ∧
    (∀ r d, artifact.governance.retention = some r → r.expires_at = none →
      r.duration_days = some d → d ≠ 0 →
      isExpired artifact now =
        decide (artifact.meta.created_at + d * 24 * 60 * 60 * 1000 < now)) ∧
    (∀ r, artifact.governance.retention = some r → r.expires_at = none →
      (r.duration_days = none ∨ r.duration_days = some 0) →
      isExpired artifact now = false) := by
  refine ⟨?_, ?_, ?_, ?_⟩
  · intro h
    simp [isExpired, h]
  · intro r e hr he
    simp [isExpired, hr, he]
  · intro r d hr he hd hdz
    simp [isExpired, hr, he, hd, hdz]
  · intro r hr he hd
    rcases hd with hd | hd <;> simp [isExpired, hr, he, hd]

/-- Witness for C6 (amended): a concrete artifact with expires_at = 5 is
expired exactly when the clock passes 5, here at now = 10. -/
theorem isExpired_retention_cases_witness :
    expiredSample.governance.retention =
      some { duration_days := none, expires_at := some 0, auto_delete := none } ∧
    isExpired expiredSample 10 = decide ((0 : Int) < 10) :=
  ⟨by decide,
   (isExpired_retention_cases expiredSample 10).2.1
     { duration_days := none, expires_at := some 0, auto_delete := none } 0 (by decide) rfl⟩

/-- Claim C7: for every artifact, identity (or none) and purpose, the
AccessDecision returned by canAccess has an empty reasons list exactly when
allowed is true: every denial carries at least one reason and every allowance
carries none. -/
theorem access_reasons_empty_iff_allowed (artifact : EdmArtifact)
    (context : Option AuthContext) (purpose : Purpose) (now : Int) :
    (canAccess artifact context purpose now).reasons = [] ↔
      (canAccess artifact context purpose now).allowed = true := by
  cases hgx : artifact.governance.exportability <;>
    simp only [canAccess, canExport, isProhibited, isRestricted, hgx] <;>
    repeat' first
      | rfl
      | (split <;> try simp_all)

/-- Base middleware for the C8 counterexample: resolves a context that already
carries an organization id. -/
def baseWithOrg : AuthMiddleware :=
  fun _ => some { userId := "u1", roles := ["user"], organizationId := some "org-A",
                  permissions := none }

/-- Request carrying the organization header with a different value. -/
def orgHeaderRequest : Request :=
  { headers := [("X-Organization-Id", "org-B")] }

/-- Counterexample to claim C8: the base middleware resolves a context whose
organizationId is org-A, the organization header carries org-B, and the wrapped
middleware does not return the context unchanged — the header value overwrites
the already-present organizationId, because the source spreads the context
first and then assigns `organizationId: orgId`. -/
theorem withOrganizationHeader_overwrites_counterexample :
    baseWithOrg orgHeaderRequest =
      some { userId := "u1", roles := ["user"], organizationId := some "org-A",
             permissions := none } ∧
    withOrganizationHeader baseWithOrg "x-organization-id" orgHeaderRequest =
      some { userId := "u1", roles := ["user"], organizationId := some "org-B",
             permissions := none } ∧
    withOrganizationHeader baseWithOrg "x-organization-id" orgHeaderRequest ≠
      baseWithOrg orgHeaderRequest := by decide

/-- Claim C8 (amended): the enrichment wrapper passes a none result of the base
middleware through as none; when the base middleware resolves a context, every
field other than organizationId is preserved; when the organization header is
absent or empty the context is returned entirely unchanged; and when the header
is present and nonempty the wrapper sets organizationId to the header value,
overwriting any value already present. -/
theorem withOrganizationHeader_enrichment (baseMiddleware : AuthMiddleware)
    (orgHeader : String) (request : Request) :
    (baseMiddleware request = none →
      withOrganizationHeader baseMiddleware orgHeader request = none) ∧
    (∀ context, baseMiddleware request = some context →
      ((extractHeaders request (jsToLower orgHeader) = none ∨
        extractHeaders request (jsToLower orgHeader) = some "") →
        withOrganizationHeader baseMiddleware orgHeader request = some context) ∧
      (∀ orgId, extractHeaders request (jsToLower orgHeader) = some orgId → orgId ≠ "" →
        withOrganizationHeader baseMiddleware orgHeader request =
          some { context with organizationId := some orgId })) := by
  refine ⟨?_, ?_⟩
  · intro h
    simp [withOrganizationHeader, h]
  · intro context hctx
    refine ⟨?_, ?_⟩
    · intro hhdr
      rcases hhdr with hhdr | hhdr <;> simp [withOrganizationHeader, hctx, hhdr]
    · intro orgId hhdr hne
      simp [withOrganizationHeader, hctx, hhdr, hne]

/-- Witness for C8 (amended): with the concrete base and request, the wrapper
keeps userId and roles and sets organizationId to the header value org-B. -/
theorem withOrganizationHeader_enrichment_witness :
    baseWithOrg orgHeaderRequest =
      some { userId := "u1", roles := ["user"], organizationId := some "org-A",
             permissions := none } ∧
    withOrganizationHeader baseWithOrg "x-organization-id" orgHeaderRequest =
      some { userId := "u1", roles := ["user"], organizationId := some "org-B",
             permissions := none } :=
  ⟨rfl,
   (withOrganizationHeader_enrichment baseWithOrg "x-organization-id" orgHeaderRequest).2
     { userId := "u1", roles := ["user"], organizationId := some "org-A",
       permissions := none } rfl |>.2 "org-B" (by decide) (by decide)⟩

/-- Peeling one byte off the front of the denoted byte sequence. -/
theorem specDenotedBytes_cons (c1 c2 : Char) (rest : List Char) :
    specDenotedBytes (c1 :: c2 :: rest) =
      (16 * hexDigitVal c1 + hexDigitVal c2) :: specDenotedBytes rest := by
  unfold specDenotedBytes
  have h2 : (c1 :: c2 :: rest).length / 2 = rest.length / 2 + 1 := by
    simp only [List.length_cons]
    omega
  rw [h2, List.range_succ_eq_map, List.map_cons, List.map_map]
  congr 1

/-- The byte-building loop of hexToKey computes exactly the denoted byte
sequence on every even-length digit string. -/
theorem hexPairsToBytes_eq_spec :
    ∀ digits : List Char, digits.length % 2 = 0 →
      hexPairsToBytes digits = specDenotedBytes digits
  | [], _ => by simp [hexPairsToBytes, specDenotedBytes]
  | [_], h => by simp at h
  | c1 :: c2 :: rest, h => by
    have h2 : rest.length % 2 = 0 := by
      simp only [List.length_cons] at h
      omega
    rw [hexPairsToBytes, specDenotedBytes_cons, hexPairsToBytes_eq_spec rest h2]

/-- Seal arguments for the C9 witness: exportable artifact but an odd-length
hexadecimal key. -/
def sealArgsOddKey : SealArgs :=
  { artifact := some sampleArtifact, privateKey := "010",
    did := "did:example:alice", algorithm := none, save := some true }

/-- Claim C9: hexToKey decodes a hexadecimal key string (an optional 0x prefix
stripped first) into the byte sequence it denotes — in particular "0102"
decodes to [1, 2] — and rejects any string with a non-hex digit or an odd
number of hex digits with an INVALID_KEY error; inside the seal operation such
a decoding failure surfaces before the signing capability is ever invoked (the
trace records zero signing calls and zero save attempts). -/
theorem hexToKey_decodes_and_rejects :
    hexToKey "0102" = Except.ok [1, 2] ∧
    (∀ hex : String,
      ((cleanHexOf hex).toList.all isHexDigit = true ∧ (cleanHexOf hex).length % 2 = 0 →
        hexToKey hex = Except.ok (specDenotedBytes (cleanHexOf hex).toList)) ∧
      ((cleanHexOf hex).toList.all isHexDigit = false ∨ (cleanHexOf hex).length % 2 ≠ 0 →
        ∃ m, hexToKey hex =
          Except.error { message := m, code := SealErrorCode.INVALID_KEY })) ∧
    (∀ (storageSave : Option (DdnaEnvelope → Except String String))
       (sealFn : EdmArtifact → List Nat → String → Option String → Except String DdnaEnvelope)
       (args : SealArgs) (artifact : EdmArtifact) (e : SealError),
      args.artifact = some artifact → artifact.artifact_id ≠ "" →
      artifact.governance.exportability = Exportability.allowed →
      args.did ≠ "" → jsStartsWith args.did "did:" = true →
      hexToKey args.privateKey = Except.error e →
      sealExecute storageSave sealFn args =
        (Except.error { message := "Invalid private key format",
                        code := SealErrorCode.INVALID_KEY },
         { sealCalls := 0, saveCalls := 0 })) := by
  refine ⟨by decide, ?_, ?_⟩
  · intro hex
    constructor
    · rintro ⟨hall, heven⟩
      have hlen : (cleanHexOf hex).toList.length % 2 = 0 := heven
      simp only [hexToKey]
      rw [show (!(cleanHexOf hex).toList.all isHexDigit) = false from by rw [hall]; rfl]
      rw [show (((cleanHexOf hex).length % 2 != 0) : Bool) = false from by rw [heven]; rfl]
      simp only [Bool.false_eq_true, if_false]
      rw [hexPairsToBytes_eq_spec (cleanHexOf hex).toList hlen]
    · intro hbad
      by_cases hall : (cleanHexOf hex).toList.all isHexDigit = true
      · have hodd : (cleanHexOf hex).length % 2 ≠ 0 := by
          rcases hbad with hbad | hbad
          · rw [hall] at hbad
            exact absurd hbad (by decide)
          · exact hbad
        have hone : (cleanHexOf hex).length % 2 = 1 := by omega
        refine ⟨"Hex string must have even length", ?_⟩
        simp only [hexToKey]
        rw [show (!(cleanHexOf hex).toList.all isHexDigit) = false from by rw [hall]; rfl]
        rw [show (((cleanHexOf hex).length % 2 != 0) : Bool) = true from by rw [hone]; rfl]
        simp
      · have hfalse : (cleanHexOf hex).toList.all isHexDigit = false := by
          revert hall
          cases (cleanHexOf hex).toList.all isHexDigit <;> simp
        refine ⟨"Invalid hex string", ?_⟩
        simp only [hexToKey]
        rw [show (!(cleanHexOf hex).toList.all isHexDigit) = true from by rw [hfalse]; rfl]
        simp
  · intro storageSave sealFn args artifact e hart hid hexp hdid hdidp hkey
    simp [sealExecute, hart, hid, validateGovernance_valid, canExport, hexp, hdid,
          hdidp, hkey]

/-- Witness for C9: "0102" decodes to [1, 2]; the odd-length key "010" is
rejected with INVALID_KEY; and a seal call with that key fails with
INVALID_KEY while the signing capability is never invoked. -/
theorem hexToKey_decodes_and_rejects_witness :
    hexToKey "0102" = Except.ok [1, 2] ∧
    (∃ m, hexToKey "010" =
      Except.error { message := m, code := SealErrorCode.INVALID_KEY }) ∧
    sealExecute (some demoSave) demoSealFn sealArgsOddKey =
      (Except.error { message := "Invalid private key format",
                      code := SealErrorCode.INVALID_KEY },
       { sealCalls := 0, saveCalls := 0 }) :=
  ⟨hexToKey_decodes_and_rejects.1,
   (hexToKey_decodes_and_rejects.2.1 "010").2 (Or.inr (by decide)),
   hexToKey_decodes_and_rejects.2.2 (some demoSave) demoSealFn sealArgsOddKey
     sampleArtifact
     { message := "Hex string must have even length", code := SealErrorCode.INVALID_KEY }
     rfl (by decide) (by decide) (by decide) (by decide) (by decide)⟩

/-- Claim C10: in the in-memory storage's list operation pagination is applied
only when a nonzero limit is supplied — for every store state and every filter
whose limit is absent or zero, the result equals the result of the same filter
with any offset and no limit at all, i.e. all ids matching the non-pagination
filters are returned and the offset is ignored; this holds for the artifact
store and the envelope store alike. -/
theorem memory_list_pagination_requires_limit
    (store : List (String × EdmArtifact)) (estore : List (String × DdnaEnvelope))
    (f : StorageFilter) (o : Option Int)
    (h : f.limit = none ∨ f.limit = some 0) :
    memoryArtifactList store (some f) =
      memoryArtifactList store (some { f with offset := o, limit := none }) ∧
    memoryEnvelopeList estore (some f) =
      memoryEnvelopeList estore (some { f with offset := o, limit := none }) := by
  obtain ⟨u, og, t, v, l, off⟩ := f
  rcases h with h | h <;> simp only [StorageFilter.limit] at h <;> subst h <;>
    simp [memoryArtifactList, memoryEnvelopeList, numTruthy]

/-- A two-artifact store for the C10 witness. -/
def demoArtifactStore : List (String × EdmArtifact) :=
  [("a", sampleArtifact), ("b", prohibitedSample)]

/-- A one-envelope store for the C10 witness. -/
def demoEnvelopeStore : List (String × DdnaEnvelope) :=
  [("e1", sampleEnvelope)]

/-- Filter that sets an offset but no limit. -/
def offsetOnlyFilter : StorageFilter :=
  { userId := none, organizationId := none, tags := none, visibility := none,
    limit := none, offset := some 1 }

/-- Witness for C10: with offset 1 and no limit, listing returns the same ids
as with no pagination at all — the offset is ignored. -/
theorem memory_list_pagination_requires_limit_witness :
    memoryArtifactList demoArtifactStore (some offsetOnlyFilter) =
      memoryArtifactList demoArtifactStore
        (some { offsetOnlyFilter with offset := none, limit := none }) ∧
    memoryEnvelopeList demoEnvelopeStore (some offsetOnlyFilter) =
      memoryEnvelopeList demoEnvelopeStore
        (some { offsetOnlyFilter with offset := none, limit := none }) :=
  memory_list_pagination_requires_limit demoArtifactStore demoEnvelopeStore
    offsetOnlyFilter none (Or.inl rfl)
